import Mathlib

/-!
Shallow embedding of `scripts/query_llms.py`: a CLI utility that queries two
LLM providers (ChatGPT via `codex` CLI or OpenAI API, Gemini via `gemini` CLI
or Google API), preferring local CLI tools and falling back to HTTPS APIs.
External effects (filesystem, process environment, subprocess runs, HTTP
calls) are modelled as oracles packaged in a `World` record; the script's
pure decision logic is translated function by function.
-/

/-- The double-quote character `"` (used by the value-stripping logic). -/
def dquoteChar : Char := Char.ofNat 34

/-- The single-quote character (used by the value-stripping logic). -/
def squoteChar : Char := Char.ofNat 39

/-- The ASCII whitespace characters removed by Python's `str.strip()`. -/
def pyWhitespace : List Char := [' ', '\t', '\n', '\r', Char.ofNat 11, Char.ofNat 12]

/-- Python's `str.strip(chars)`: remove all leading and trailing characters
belonging to `cs`. -/
def stripChars (cs : List Char) (s : String) : String :=
  (((s.toList.dropWhile (fun c => cs.contains c)).reverse.dropWhile
    (fun c => cs.contains c)).reverse).asString

/-- Python's `str.strip()` with no argument: strip surrounding whitespace. -/
def pyStrip (s : String) : String := stripChars pyWhitespace s

/-- Boolean list-prefix test, used for `str.startswith` and the substring
test below. -/
def isPrefixB : List Char → List Char → Bool
  | [], _ => true
  | _ :: _, [] => false
  | c :: cs, d :: ds => c = d && isPrefixB cs ds

/-- Python's `s.startswith(pre)`. -/
def pyStartsWith (s pre : String) : Bool := isPrefixB pre.toList s.toList

/-- Python's `c in s` membership test for a single character. -/
def pyContainsChar (s : String) (c : Char) : Bool := s.toList.contains c

/-- Python's `line.split("=", 1)` when `"="` occurs in `line`: the part before
the first `=` and the part after it. -/
def splitFirstEq (s : String) : String × String :=
  ((s.toList.takeWhile (fun c => c ≠ '=')).asString,
   ((s.toList.dropWhile (fun c => c ≠ '=')).drop 1).asString)

/-- Python dict assignment `d[k] = v`: overwrite the existing entry for `k`
or append a new one. -/
def dictSet (d : List (String × String)) (k v : String) : List (String × String) :=
  match d with
  | [] => [(k, v)]
  | (k0, v0) :: rest => if k0 = k then (k, v) :: rest else (k0, v0) :: dictSet rest k v

/-- Python dict lookup `d.get(k)`: the stored value, or `none` when absent. -/
def dictGet (d : List (String × String)) (k : String) : Option String :=
  match d with
  | [] => none
  | (k0, v0) :: rest => if k0 = k then some v0 else dictGet rest k

/-- One iteration of the line loop in `load_env_file`: strip the line; if it
is non-empty, does not start with `#` and contains `=`, split at the first
`=` and store the stripped key with the value stripped of whitespace, then of
all surrounding `"` characters, then of all surrounding `'` characters
(Python `value.strip().strip(chr 34).strip(chr 39)`); otherwise leave the
accumulator unchanged. -/
def envLine (acc : List (String × String)) (rawLine : String) : List (String × String) :=
  let line := pyStrip rawLine
  if line ≠ "" ∧ ¬ pyStartsWith line "#" ∧ pyContainsChar line '=' then
    let kv := splitFirstEq line
    dictSet acc (pyStrip kv.1) (stripChars [squoteChar] (stripChars [dquoteChar] (pyStrip kv.2)))
  else acc

/-- `load_env_file`: read the `.env` file (modelled as `none` when the file
does not exist, `some lines` otherwise) and fold the line parser over its
lines, starting from the empty dict. -/
def load_env_file (file : Option (List String)) : List (String × String) :=
  match file with
  | none => []
  | some lines => lines.foldl envLine []

/-- Outcome of one `subprocess.run` of a CLI tool: normal exit with a return
code, captured stdout and captured stderr; a `subprocess.TimeoutExpired`; or
any other exception. -/
inductive CliOutcome where
  | exited (returncode : Int) (stdout stderr : String)
  | timedOut
  | exc (msg : String)
deriving DecidableEq

/-- Outcome of one HTTPS API request as seen by the script: the text
successfully extracted from the response JSON, or an exception (transport
error, non-2xx status raised by `raise_for_status`, or parsing failure). -/
inductive ApiOutcome where
  | ok (text : String)
  | exc (msg : String)
deriving DecidableEq

/-- `query_gemini_cli`: run `gemini -p <prompt>`; on exit code 0 succeed with
stripped stdout, on non-zero exit fail with `"gemini-cli error: "` plus
stripped stderr, on timeout fail with `"gemini-cli timed out"`, on any other
exception fail with `"gemini-cli exception: "` plus the message. -/
def query_gemini_cli (o : CliOutcome) : Bool × String :=
  match o with
  | .exited rc stdout stderr =>
      if rc = 0 then (true, pyStrip stdout)
      else (false, "gemini-cli error: " ++ pyStrip stderr)
  | .timedOut => (false, "gemini-cli timed out")
  | .exc e => (false, "gemini-cli exception: " ++ e)

/-- `query_codex_cli`: run `codex -p <prompt>`; on exit code 0 succeed with
stripped stdout, on non-zero exit fail with `"codex error: "` plus stripped
stderr, on timeout fail with `"codex timed out"`, on any other exception fail
with `"codex exception: "` plus the message. -/
def query_codex_cli (o : CliOutcome) : Bool × String :=
  match o with
  | .exited rc stdout stderr =>
      if rc = 0 then (true, pyStrip stdout)
      else (false, "codex error: " ++ pyStrip stderr)
  | .timedOut => (false, "codex timed out")
  | .exc e => (false, "codex exception: " ++ e)

/-- `query_openai`: POST to the OpenAI chat-completions endpoint; return the
`choices[0].message.content` text, or on any exception the string
`"Error querying ChatGPT (<model>): <exception>"`. Never raises. -/
def query_openai (prompt api_key model : String) (o : ApiOutcome) : String :=
  match o with
  | .ok t => t
  | .exc e => "Error querying ChatGPT (" ++ model ++ "): " ++ e

/-- `query_gemini`: POST to the Google `generateContent` endpoint; return the
`candidates[0].content.parts[0].text` text, or on any exception the string
`"Error querying Gemini (<model>): <exception>"`. Never raises. -/
def query_gemini (prompt api_key model : String) (o : ApiOutcome) : String :=
  match o with
  | .ok t => t
  | .exc e => "Error querying Gemini (" ++ model ++ "): " ++ e

/-- The external world one run observes: the optional `.env` file contents,
the process environment, `shutil.which` availability of the two CLI tools,
the outcome each CLI tool invocation would have, and the outcome each API
request would have. -/
structure World where
  envFile : Option (List String)
  osEnv : String → Option String
  codexAvailable : Bool
  geminiAvailable : Bool
  codexCli : CliOutcome
  geminiCli : CliOutcome
  openaiApi : ApiOutcome
  geminiApi : ApiOutcome

/-- Python truthiness of an optional string: `none` and `""` are falsy. -/
def truthy : Option String → Bool
  | none => false
  | some s => s ≠ ""

/-- Python `a or b` on optional strings: `b` when `a` is `None` or empty. -/
def pyOrOpt (a b : Option String) : Option String :=
  if truthy a then a else b

/-- Python `a or d` with a string default: `d` when `a` is `None` or empty. -/
def pyOrDefault (a : Option String) (d : String) : String :=
  match a with
  | some s => if s ≠ "" then s else d
  | none => d

/-- The dict produced by `load_env_file()` in `main`. -/
def env_vars (w : World) : List (String × String) := load_env_file w.envFile

/-- Value a setting has in the `.env` file dict, if any. -/
def fileVal (w : World) (k : String) : Option String := dictGet (env_vars w) k

/-- The pattern `env_vars.get(k) or os.environ.get(k)` used for every
setting in `main`. -/
def resolveSetting (w : World) (k : String) : Option String :=
  pyOrOpt (fileVal w k) (w.osEnv k)

/-- `openai_key` as resolved in `main`. -/
def openai_key (w : World) : Option String := resolveSetting w "OPENAI_API_KEY"

/-- `gemini_key` as resolved in `main`. -/
def gemini_key (w : World) : Option String := resolveSetting w "GEMINI_API_KEY"

/-- `openai_model` as resolved in `main`, default `"gpt-5-nano"`. -/
def openai_model (w : World) : String :=
  pyOrDefault (resolveSetting w "OPENAI_MODEL") "gpt-5-nano"

/-- `gemini_model` as resolved in `main`, default `"gemini-3-flash-preview"`. -/
def gemini_model (w : World) : String :=
  pyOrDefault (resolveSetting w "GEMINI_MODEL") "gemini-3-flash-preview"

/-- The ChatGPT block of `main`: if the `codex` CLI is available, try it and
on success take its answer with source `"codex-cli"`; otherwise (no tool or
failed attempt) fall back to the API when `openai_key` is truthy, with source
`"api (<model>)"`; otherwise the fixed error string with source `"none"`.
Returns `(response, source)`. -/
def chatgptPair (w : World) (prompt : String) : String × String :=
  let cli : Option (String × String) :=
    if w.codexAvailable then
      let r := query_codex_cli w.codexCli
      if r.1 then some (r.2, "codex-cli") else none
    else none
  match cli with
  | some p => p
  | none =>
    if truthy (openai_key w) then
      (query_openai prompt ((openai_key w).getD "") (openai_model w) w.openaiApi,
       "api (" ++ openai_model w ++ ")")
    else
      ("Error: codex CLI not available and OPENAI_API_KEY not found", "none")

/-- The Gemini block of `main`, symmetric to `chatgptPair`: CLI answer with
source `"gemini-cli"`, else API with source `"api (<model>)"`, else the fixed
error string with source `"none"`. Returns `(response, source)`. -/
def geminiPair (w : World) (prompt : String) : String × String :=
  let cli : Option (String × String) :=
    if w.geminiAvailable then
      let r := query_gemini_cli w.geminiCli
      if r.1 then some (r.2, "gemini-cli") else none
    else none
  match cli with
  | some p => p
  | none =>
    if truthy (gemini_key w) then
      (query_gemini prompt ((gemini_key w).getD "") (gemini_model w) w.geminiApi,
       "api (" ++ gemini_model w ++ ")")
    else
      ("Error: gemini CLI not available and GEMINI_API_KEY not found", "none")

/-- One provider's entry in the result dict: `model`, `source`, `response`. -/
structure ProviderResult where
  model : String
  source : String
  response : String
deriving DecidableEq

/-- The aggregate result dict printed by `main`:
`(prompt, chatgpt entry, gemini entry)`. -/
structure Output where
  prompt : String
  chatgpt : ProviderResult
  gemini : ProviderResult
deriving DecidableEq

/-- The result dict `main` builds when a prompt was supplied. -/
def runOutput (args : List String) (w : World) : Output :=
  let prompt := String.intercalate " " args
  { prompt := prompt
    chatgpt := { model := openai_model w
                 source := (chatgptPair w prompt).2
                 response := (chatgptPair w prompt).1 }
    gemini := { model := gemini_model w
                source := (geminiPair w prompt).2
                response := (geminiPair w prompt).1 } }

/-- Observable end of a run: the usage-error JSON printed with exit status 1,
or the aggregate output printed with an exit status. -/
inductive RunResult where
  | usageError (printed : String) (exitCode : Nat)
  | completed (out : Output) (exitCode : Nat)
deriving DecidableEq

/-- The exact string `json.dumps` produces for the usage-error dict
`(error = "Usage: query_llms.py <prompt>", chatgpt = None, gemini = None)`
with default separators. -/
def usageJson : String :=
  "\x7b\"error\": \"Usage: query_llms.py <prompt>\", \"chatgpt\": null, \"gemini\": null\x7d"

/-- `main`, over the user-supplied arguments `sys.argv[1:]`: with no
arguments print the usage JSON and exit 1; otherwise join the arguments with
single spaces into the prompt, resolve configuration, query both providers
and print the aggregate output, exiting 0. -/
def mainFn (args : List String) (w : World) : RunResult :=
  if args.length < 1 then .usageError usageJson 1
  else .completed (runOutput args w) 0

/-- The string values serialized into the output JSON (every field of the
printed result dict). -/
def outputFields (o : Output) : List String :=
  [o.prompt,
   o.chatgpt.model, o.chatgpt.source, o.chatgpt.response,
   o.gemini.model, o.gemini.source, o.gemini.response]

/-- Boolean substring test: `needle` occurs contiguously in `hay`. -/
def isSubstrB (needle hay : List Char) : Bool :=
  match hay with
  | [] => isPrefixB needle []
  | _ :: rest => isPrefixB needle hay || isSubstrB needle rest

/-- Modelled from the spec's words (for comparison with the code's value
stripping, not taken from the source): remove one layer of matching quote
characters around `s` — only when `s` begins and ends with the same quote
character and has length at least 2. -/
def stripQuotesSpec (s : String) : String :=
  match s.toList with
  | [] => s
  | c :: rest =>
    if (c = dquoteChar ∨ c = squoteChar) ∧ rest.getLast? = some c then
      (rest.dropLast).asString
    else s

/-! ### Helper lemmas -/

theorem foldl_skip {α β : Type} (f : α → β → α) (b : β) (hb : ∀ a, f a b = a)
    (pre post : List β) (init : α) :
    (pre ++ b :: post).foldl f init = (pre ++ post).foldl f init := by
  induction pre generalizing init with
  | nil => simp [hb]
  | cons x xs ih => simpa using ih (f init x)

theorem envLine_skip (line : String)
    (h : pyStrip line = "" ∨ pyStartsWith (pyStrip line) "#" = true ∨
         pyContainsChar (pyStrip line) '=' = false) :
    ∀ acc, envLine acc line = acc := by
  intro acc
  rcases h with h | h | h
  · simp [envLine, h]
  · simp [envLine, h]
  · simp [envLine, h]

theorem query_codex_cli_fail (o : CliOutcome)
    (h : (∃ rc stdout stderr, o = .exited rc stdout stderr ∧ rc ≠ 0) ∨ o = .timedOut) :
    (query_codex_cli o).1 = false := by
  rcases h with ⟨rc, stdout, stderr, rfl, hrc⟩ | rfl
  · simp [query_codex_cli, hrc]
  · rfl

theorem query_gemini_cli_fail (o : CliOutcome)
    (h : (∃ rc stdout stderr, o = .exited rc stdout stderr ∧ rc ≠ 0) ∨ o = .timedOut) :
    (query_gemini_cli o).1 = false := by
  rcases h with ⟨rc, stdout, stderr, rfl, hrc⟩ | rfl
  · simp [query_gemini_cli, hrc]
  · rfl

theorem chatgptPair_cli (w : World) (prompt : String)
    (hav : w.codexAvailable = true)
    (hs : (query_codex_cli w.codexCli).1 = true) :
    chatgptPair w prompt = ((query_codex_cli w.codexCli).2, "codex-cli") := by
  simp [chatgptPair, hav, hs]

theorem geminiPair_cli (w : World) (prompt : String)
    (hav : w.geminiAvailable = true)
    (hs : (query_gemini_cli w.geminiCli).1 = true) :
    geminiPair w prompt = ((query_gemini_cli w.geminiCli).2, "gemini-cli") := by
  simp [geminiPair, hav, hs]

theorem chatgptPair_api (w : World) (prompt : String)
    (h : ¬ (w.codexAvailable = true ∧ (query_codex_cli w.codexCli).1 = true))
    (hk : truthy (openai_key w) = true) :
    chatgptPair w prompt =
      (query_openai prompt ((openai_key w).getD "") (openai_model w) w.openaiApi,
       "api (" ++ openai_model w ++ ")") := by
  cases hav : w.codexAvailable with
  | false => simp [chatgptPair, hav, hk]
  | true =>
    have hr : (query_codex_cli w.codexCli).1 = false := by
      cases hr : (query_codex_cli w.codexCli).1
      · rfl
      · exact absurd ⟨hav, hr⟩ h
    simp [chatgptPair, hav, hr, hk]

theorem geminiPair_api (w : World) (prompt : String)
    (h : ¬ (w.geminiAvailable = true ∧ (query_gemini_cli w.geminiCli).1 = true))
    (hk : truthy (gemini_key w) = true) :
    geminiPair w prompt =
      (query_gemini prompt ((gemini_key w).getD "") (gemini_model w) w.geminiApi,
       "api (" ++ gemini_model w ++ ")") := by
  cases hav : w.geminiAvailable with
  | false => simp [geminiPair, hav, hk]
  | true =>
    have hr : (query_gemini_cli w.geminiCli).1 = false := by
      cases hr : (query_gemini_cli w.geminiCli).1
      · rfl
      · exact absurd ⟨hav, hr⟩ h
    simp [geminiPair, hav, hr, hk]

theorem chatgptPair_missing (w : World) (prompt : String)
    (h : ¬ (w.codexAvailable = true ∧ (query_codex_cli w.codexCli).1 = true))
    (hk : truthy (openai_key w) = false) :
    chatgptPair w prompt =
      ("Error: codex CLI not available and OPENAI_API_KEY not found", "none") := by
  cases hav : w.codexAvailable with
  | false => simp [chatgptPair, hav, hk]
  | true =>
    have hr : (query_codex_cli w.codexCli).1 = false := by
      cases hr : (query_codex_cli w.codexCli).1
      · rfl
      · exact absurd ⟨hav, hr⟩ h
    simp [chatgptPair, hav, hr, hk]

theorem geminiPair_missing (w : World) (prompt : String)
    (h : ¬ (w.geminiAvailable = true ∧ (query_gemini_cli w.geminiCli).1 = true))
    (hk : truthy (gemini_key w) = false) :
    geminiPair w prompt =
      ("Error: gemini CLI not available and GEMINI_API_KEY not found", "none") := by
  cases hav : w.geminiAvailable with
  | false => simp [geminiPair, hav, hk]
  | true =>
    have hr : (query_gemini_cli w.geminiCli).1 = false := by
      cases hr : (query_gemini_cli w.geminiCli).1
      · rfl
      · exact absurd ⟨hav, hr⟩ h
    simp [geminiPair, hav, hr, hk]

/-! ### Concrete worlds used by counterexamples and witnesses -/

/-- Both CLI tools available and succeeding with stdout `"hello"`. -/
def wC1 : World :=
  { envFile := none
    osEnv := fun _ => none
    codexAvailable := true
    geminiAvailable := true
    codexCli := .exited 0 "hello" ""
    geminiCli := .exited 0 "hello" ""
    openaiApi := .ok "apitext"
    geminiApi := .ok "gtext" }

/-- Both CLI tools available but timing out; both API keys set in the
process environment; both API calls succeeding. -/
def wC2 : World :=
  { envFile := none
    osEnv := fun k =>
      if k = "OPENAI_API_KEY" then some "k1"
      else if k = "GEMINI_API_KEY" then some "k2" else none
    codexAvailable := true
    geminiAvailable := true
    codexCli := .timedOut
    geminiCli := .timedOut
    openaiApi := .ok "ca"
    geminiApi := .ok "ga" }

/-- A `.env` file supplying an empty `OPENAI_API_KEY` while the process
environment supplies `"xyz"` for it. -/
def wC3 : World :=
  { envFile := some ["OPENAI_API_KEY=\"\""]
    osEnv := fun k => if k = "OPENAI_API_KEY" then some "xyz" else none
    codexAvailable := false
    geminiAvailable := false
    codexCli := .timedOut
    geminiCli := .timedOut
    openaiApi := .ok "ca"
    geminiApi := .ok "ga" }

/-- A `.env` file supplying `OPENAI_API_KEY="abc"`; empty process
environment. -/
def wC3b : World :=
  { envFile := some ["OPENAI_API_KEY=\"abc\""]
    osEnv := fun _ => none
    codexAvailable := false
    geminiAvailable := false
    codexCli := .timedOut
    geminiCli := .timedOut
    openaiApi := .ok "ca"
    geminiApi := .ok "ga" }

/-- No CLI tools, no API keys anywhere. -/
def wC6 : World :=
  { envFile := none
    osEnv := fun _ => none
    codexAvailable := false
    geminiAvailable := false
    codexCli := .timedOut
    geminiCli := .timedOut
    openaiApi := .ok "ca"
    geminiApi := .ok "ga" }

/-- The `codex` CLI is available but exits 1 with stderr `"boom"`; the
OpenAI key is set and the API call succeeds; Gemini has no tool and no key. -/
def wC7 : World :=
  { envFile := none
    osEnv := fun k => if k = "OPENAI_API_KEY" then some "k1" else none
    codexAvailable := true
    geminiAvailable := false
    codexCli := .exited 1 "" "boom"
    geminiCli := .timedOut
    openaiApi := .ok "apitext"
    geminiApi := .ok "gtext" }

/-! ### Claims -/

/-- C1 counterexample: with the `codex` CLI available and exiting 0 with
stdout `"hello"`, the provider's response is indeed `"hello"`, but the
recorded source descriptor is `"codex-cli"`, not `"cli"` as the claim
states (the code writes provider-specific descriptors `"codex-cli"` and
`"gemini-cli"`). -/
theorem C1_counterexample :
    wC1.codexAvailable = true ∧ wC1.codexCli = .exited 0 "hello" "" ∧
    (runOutput ["hi"] wC1).chatgpt.response = "hello" ∧
    (runOutput ["hi"] wC1).chatgpt.source = "codex-cli" ∧
    ¬ (runOutput ["hi"] wC1).chatgpt.source = "cli" := by
  decide

/-- C1 (amended): for each provider, if its CLI tool is available and the
invocation exits with status 0, the provider's response equals the tool's
stripped stdout, the source descriptor is the provider-specific CLI label
(`"codex-cli"` for ChatGPT, `"gemini-cli"` for Gemini), and no API call is
attempted — the run's output is invariant under any change of that
provider's API outcome. -/
theorem C1_cli_success (args : List String) (w : World) :
    (∀ stdout stderr, w.codexAvailable = true → w.codexCli = .exited 0 stdout stderr →
      (runOutput args w).chatgpt.response = pyStrip stdout ∧
      (runOutput args w).chatgpt.source = "codex-cli" ∧
      ∀ a, runOutput args { w with openaiApi := a } = runOutput args w) ∧
    (∀ stdout stderr, w.geminiAvailable = true → w.geminiCli = .exited 0 stdout stderr →
      (runOutput args w).gemini.response = pyStrip stdout ∧
      (runOutput args w).gemini.source = "gemini-cli" ∧
      ∀ a, runOutput args { w with geminiApi := a } = runOutput args w) := by
  constructor
  · intro stdout stderr hav ho
    have hs : (query_codex_cli w.codexCli).1 = true := by simp [ho, query_codex_cli]
    have hB := chatgptPair_cli w (String.intercalate " " args) hav hs
    refine ⟨?_, ?_, ?_⟩
    · simp [runOutput, hB, ho, query_codex_cli]
    · simp [runOutput, hB]
    · intro a
      have hA := chatgptPair_cli { w with openaiApi := a }
        (String.intercalate " " args) hav hs
      simp [runOutput, hA, hB]
      exact ⟨rfl, rfl, rfl, rfl⟩
  · intro stdout stderr hav ho
    have hs : (query_gemini_cli w.geminiCli).1 = true := by simp [ho, query_gemini_cli]
    have hB := geminiPair_cli w (String.intercalate " " args) hav hs
    refine ⟨?_, ?_, ?_⟩
    · simp [runOutput, hB, ho, query_gemini_cli]
    · simp [runOutput, hB]
    · intro a
      have hA := geminiPair_cli { w with geminiApi := a }
        (String.intercalate " " args) hav hs
      simp [runOutput, hA, hB]
      exact ⟨⟨rfl, rfl, rfl⟩, rfl⟩

/-- C1 witness: at `wC1` both CLI calls exit 0 with stdout `"hello"`, and
both providers report response `"hello"` with their CLI source labels. -/
theorem C1_cli_success_witness :
    (runOutput ["hi"] wC1).chatgpt.response = "hello" ∧
    (runOutput ["hi"] wC1).chatgpt.source = "codex-cli" ∧
    (runOutput ["hi"] wC1).gemini.response = "hello" ∧
    (runOutput ["hi"] wC1).gemini.source = "gemini-cli" := by
  have h1 := (C1_cli_success ["hi"] wC1).1 "hello" "" rfl rfl
  have h2 := (C1_cli_success ["hi"] wC1).2 "hello" "" rfl rfl
  exact ⟨h1.1.trans (by decide), h1.2.1, h2.1.trans (by decide), h2.2.1⟩

/-- C2: for each provider, if the CLI attempt fails (non-zero exit status or
timeout) and the resolved API key is truthy, the provider's response equals
the result of the direct API query (as modelled by `query_openai` /
`query_gemini` on the world's API outcome) and the source descriptor is
`"api (<model>)"`. -/
theorem C2_api_fallback (args : List String) (w : World) :
    (((∃ rc stdout stderr, w.codexCli = .exited rc stdout stderr ∧ rc ≠ 0) ∨
        w.codexCli = .timedOut) →
      truthy (openai_key w) = true →
      (runOutput args w).chatgpt.response =
        query_openai (String.intercalate " " args) ((openai_key w).getD "")
          (openai_model w) w.openaiApi ∧
      (runOutput args w).chatgpt.source = "api (" ++ openai_model w ++ ")") ∧
    (((∃ rc stdout stderr, w.geminiCli = .exited rc stdout stderr ∧ rc ≠ 0) ∨
        w.geminiCli = .timedOut) →
      truthy (gemini_key w) = true →
      (runOutput args w).gemini.response =
        query_gemini (String.intercalate " " args) ((gemini_key w).getD "")
          (gemini_model w) w.geminiApi ∧
      (runOutput args w).gemini.source = "api (" ++ gemini_model w ++ ")") := by
  constructor
  · intro hfail hk
    have hnc : ¬ (w.codexAvailable = true ∧ (query_codex_cli w.codexCli).1 = true) := by
      intro hc
      simp [query_codex_cli_fail w.codexCli hfail] at hc
    have h := chatgptPair_api w (String.intercalate " " args) hnc hk
    exact ⟨by simp [runOutput, h], by simp [runOutput, h]⟩
  · intro hfail hk
    have hnc : ¬ (w.geminiAvailable = true ∧ (query_gemini_cli w.geminiCli).1 = true) := by
      intro hc
      simp [query_gemini_cli_fail w.geminiCli hfail] at hc
    have h := geminiPair_api w (String.intercalate " " args) hnc hk
    exact ⟨by simp [runOutput, h], by simp [runOutput, h]⟩

/-- C2 witness: at `wC2` both CLI tools time out, both keys are present, and
both providers report the API text with `api (<model>)` sources. -/
theorem C2_api_fallback_witness :
    (runOutput ["hi"] wC2).chatgpt.response = "ca" ∧
    (runOutput ["hi"] wC2).chatgpt.source = "api (gpt-5-nano)" ∧
    (runOutput ["hi"] wC2).gemini.response = "ga" ∧
    (runOutput ["hi"] wC2).gemini.source = "api (gemini-3-flash-preview)" := by
  have h1 := (C2_api_fallback ["hi"] wC2).1 (Or.inr rfl) (by decide)
  have h2 := (C2_api_fallback ["hi"] wC2).2 (Or.inr rfl) (by decide)
  exact ⟨h1.1.trans (by decide), h1.2.trans (by decide),
         h2.1.trans (by decide), h2.2.trans (by decide)⟩

/-- C3 counterexample: in `wC3` the `.env` file supplies the value `""` for
`OPENAI_API_KEY` (the line `OPENAI_API_KEY=""`), yet the resolved key is the
process-environment value `"xyz"`, not the file's value — the Python `or`
chain treats an empty file value as absent, so the environment is not
ignored. -/
theorem C3_counterexample :
    fileVal wC3 "OPENAI_API_KEY" = some "" ∧
    openai_key wC3 = some "xyz" ∧
    some "xyz" ≠ some ("" : String) := by
  decide

/-- C3 (amended): precedence is file over environment over default, but a
setting counts as supplied only when its value is non-empty: a non-empty
file value wins; when the file value is absent or empty the environment
value (whatever it is) is used; when both are absent or empty, model
identifiers get their built-in default and API keys resolve to a falsy
value (absent or empty). The four settings of `main` are resolved by
exactly this scheme. -/
theorem C3_precedence (w : World) (k v d : String) :
    (fileVal w k = some v → v ≠ "" → resolveSetting w k = some v) ∧
    (truthy (fileVal w k) = false → resolveSetting w k = w.osEnv k) ∧
    (truthy (fileVal w k) = false → truthy (w.osEnv k) = false →
      pyOrDefault (resolveSetting w k) d = d ∧ truthy (resolveSetting w k) = false) ∧
    openai_key w = resolveSetting w "OPENAI_API_KEY" ∧
    gemini_key w = resolveSetting w "GEMINI_API_KEY" ∧
    openai_model w = pyOrDefault (resolveSetting w "OPENAI_MODEL") "gpt-5-nano" ∧
    gemini_model w = pyOrDefault (resolveSetting w "GEMINI_MODEL") "gemini-3-flash-preview" := by
  refine ⟨?_, ?_, ?_, rfl, rfl, rfl, rfl⟩
  · intro hf hv
    simp [resolveSetting, pyOrOpt, hf, truthy, hv]
  · intro hf
    simp [resolveSetting, pyOrOpt, hf]
  · intro hf he
    have hr : resolveSetting w k = w.osEnv k := by simp [resolveSetting, pyOrOpt, hf]
    rw [hr]
    cases ho : w.osEnv k with
    | none => simp [pyOrDefault, truthy]
    | some s =>
      rw [ho] at he
      have hs : s = "" := by
        by_contra hne
        simp [truthy, hne] at he
      subst hs
      simp [pyOrDefault, truthy]

/-- C3 witness: a file line `OPENAI_API_KEY="abc"` resolves to `abc`
(quotes stripped) even though the environment is empty, and an unset model
setting resolves to its built-in default. -/
theorem C3_precedence_witness :
    resolveSetting wC3b "OPENAI_API_KEY" = some "abc" ∧
    pyOrDefault (resolveSetting wC3b "OPENAI_MODEL") "gpt-5-nano" = "gpt-5-nano" := by
  constructor
  · exact (C3_precedence wC3b "OPENAI_API_KEY" "abc" "").1 (by decide) (by decide)
  · exact ((C3_precedence wC3b "OPENAI_MODEL" "" "gpt-5-nano").2.2.1
      (by decide) (by decide)).1

/-- C4: with at least one argument, the run always completes with exit
status 0, whatever the world — any CLI failure, API failure or missing key
only changes the response strings inside the output, never the exit path;
both providers' results are always produced. -/
theorem C4_exit_zero (args : List String) (w : World) (h : args ≠ []) :
    mainFn args w = .completed (runOutput args w) 0 := by
  unfold mainFn
  rw [if_neg]
  simp [Nat.lt_one_iff, List.length_eq_zero, h]

/-- C4 witness: a concrete run with one argument exits 0. -/
theorem C4_exit_zero_witness :
    mainFn ["hi"] wC7 = .completed (runOutput ["hi"] wC7) 0 := by
  exact C4_exit_zero ["hi"] wC7 (by decide)

/-- C5: with zero arguments the program prints exactly the usage JSON
object (the string `usageJson`) and exits with status 1; with one or more
arguments the prompt used and echoed in the output is the arguments joined
with single spaces. -/
theorem C5_usage (args : List String) (w : World) :
    mainFn [] w = .usageError usageJson 1 ∧
    (args ≠ [] →
      mainFn args w = .completed (runOutput args w) 0 ∧
      (runOutput args w).prompt = String.intercalate " " args) := by
  constructor
  · rfl
  · intro h
    constructor
    · unfold mainFn
      rw [if_neg]
      simp [Nat.lt_one_iff, List.length_eq_zero, h]
    · rfl

/-- C5 witness: with arguments `["a", "b"]` the echoed prompt is `"a b"`. -/
theorem C5_usage_witness :
    (runOutput ["a", "b"] wC6).prompt = "a b" := by
  exact ((C5_usage ["a", "b"] wC6).2 (by decide)).2.trans (by decide)

/-- C6: for each provider, when no CLI answer was obtained (tool absent or
attempt unsuccessful) and the resolved API key is falsy, the response is the
fixed error string naming the missing tool and key, and the source
descriptor is `"none"`. -/
theorem C6_missing_prereq (args : List String) (w : World) :
    (¬ (w.codexAvailable = true ∧ (query_codex_cli w.codexCli).1 = true) →
      truthy (openai_key w) = false →
      (runOutput args w).chatgpt.response =
        "Error: codex CLI not available and OPENAI_API_KEY not found" ∧
      (runOutput args w).chatgpt.source = "none") ∧
    (¬ (w.geminiAvailable = true ∧ (query_gemini_cli w.geminiCli).1 = true) →
      truthy (gemini_key w) = false →
      (runOutput args w).gemini.response =
        "Error: gemini CLI not available and GEMINI_API_KEY not found" ∧
      (runOutput args w).gemini.source = "none") := by
  constructor
  · intro h hk
    have hp := chatgptPair_missing w (String.intercalate " " args) h hk
    exact ⟨by simp [runOutput, hp], by simp [runOutput, hp]⟩
  · intro h hk
    have hp := geminiPair_missing w (String.intercalate " " args) h hk
    exact ⟨by simp [runOutput, hp], by simp [runOutput, hp]⟩

/-- C6 witness: with no tools and no keys anywhere (`wC6`), both provider
fields are the respective "not available" strings with source `"none"`
(and, per C4, such a run still exits 0). -/
theorem C6_missing_prereq_witness :
    (runOutput ["hi"] wC6).chatgpt.response =
      "Error: codex CLI not available and OPENAI_API_KEY not found" ∧
    (runOutput ["hi"] wC6).chatgpt.source = "none" ∧
    (runOutput ["hi"] wC6).gemini.response =
      "Error: gemini CLI not available and GEMINI_API_KEY not found" ∧
    (runOutput ["hi"] wC6).gemini.source = "none" := by
  have h1 := (C6_missing_prereq ["hi"] wC6).1 (by decide) (by decide)
  have h2 := (C6_missing_prereq ["hi"] wC6).2 (by decide) (by decide)
  exact ⟨h1.1, h1.2, h2.1, h2.2⟩

/-- C7 counterexample: in `wC7` the `codex` CLI fails with captured stderr
`"boom"` (error detail `"codex error: boom"`), the run falls back to the
API, and no field of the printed output contains `"boom"` — the CLI error
detail is discarded, not surfaced. -/
theorem C7_counterexample :
    wC7.codexAvailable = true ∧
    query_codex_cli wC7.codexCli = (false, "codex error: boom") ∧
    (∀ f ∈ outputFields (runOutput ["hi"] wC7),
      isSubstrB "boom".toList f.toList = false) := by
  decide

/-- C7 (amended): error detail that becomes a provider's response (API error
strings, missing-prerequisite strings) is surfaced in the output, since the
response fields are among the serialized output fields; but a failing CLI
attempt contributes nothing — the output is invariant under any change of
the failing tool's captured stdout/stderr. -/
theorem C7_error_surfacing (args : List String) (w : World) :
    (∀ rc stdout stderr stdout' stderr', rc ≠ 0 →
      runOutput args { w with codexCli := .exited rc stdout stderr } =
      runOutput args { w with codexCli := .exited rc stdout' stderr' }) ∧
    (∀ rc stdout stderr stdout' stderr', rc ≠ 0 →
      runOutput args { w with geminiCli := .exited rc stdout stderr } =
      runOutput args { w with geminiCli := .exited rc stdout' stderr' }) ∧
    (runOutput args w).chatgpt.response ∈ outputFields (runOutput args w) ∧
    (runOutput args w).gemini.response ∈ outputFields (runOutput args w) := by
  refine ⟨?_, ?_, by simp [outputFields], by simp [outputFields]⟩
  · intro rc stdout stderr stdout' stderr' hrc
    simp [runOutput, chatgptPair, geminiPair, query_codex_cli, query_gemini_cli,
      openai_key, gemini_key, openai_model, gemini_model, resolveSetting, fileVal,
      env_vars, hrc]
  · intro rc stdout stderr stdout' stderr' hrc
    simp [runOutput, chatgptPair, geminiPair, query_codex_cli, query_gemini_cli,
      openai_key, gemini_key, openai_model, gemini_model, resolveSetting, fileVal,
      env_vars, hrc]

/-- C7 witness: changing the failing codex CLI's stderr from `"boom"` to
`"other"` leaves the whole output unchanged, and the response field is one
of the output's serialized fields. -/
theorem C7_error_surfacing_witness :
    runOutput ["hi"] { wC7 with codexCli := .exited 1 "" "boom" } =
      runOutput ["hi"] { wC7 with codexCli := .exited 1 "" "other" } ∧
    (runOutput ["hi"] wC7).chatgpt.response ∈ outputFields (runOutput ["hi"] wC7) := by
  exact ⟨(C7_error_surfacing ["hi"] wC7).1 1 "" "boom" "" "other" (by decide),
         (C7_error_surfacing ["hi"] wC7).2.2.1⟩

/-- C8 counterexample: for the file line `K=""x""` the code stores the value
`x` — `str.strip` removes *all* leading and trailing quote characters — while
stripping a single layer of matching quotes (the claim's reading, modelled by
`stripQuotesSpec`) would leave `"x"`. -/
theorem C8_counterexample :
    splitFirstEq "K=\"\"x\"\"" = ("K", "\"\"x\"\"") ∧
    load_env_file (some ["K=\"\"x\"\""]) = [("K", "x")] ∧
    stripQuotesSpec (pyStrip "\"\"x\"\"") = "\"x\"" ∧
    ("x" : String) ≠ "\"x\"" := by
  decide

/-- C8 (amended): lines are whitespace-stripped first; blank lines and lines
starting with `#` are ignored and do not affect adjacent entries; a
remaining line containing `=` is split at its first `=`, the key is
whitespace-stripped, and the value is whitespace-stripped and then stripped
of all leading and trailing double quotes followed by all leading and
trailing single quotes, with no matching requirement. -/
theorem C8_line_parsing (pre post : List String) (line : String) :
    ((pyStrip line = "" ∨ pyStartsWith (pyStrip line) "#" = true) →
      load_env_file (some (pre ++ line :: post)) = load_env_file (some (pre ++ post))) ∧
    (pyStrip line ≠ "" → pyStartsWith (pyStrip line) "#" = false →
      pyContainsChar (pyStrip line) '=' = true →
      load_env_file (some [line]) =
        [(pyStrip (splitFirstEq (pyStrip line)).1,
          stripChars [squoteChar]
            (stripChars [dquoteChar] (pyStrip (splitFirstEq (pyStrip line)).2)))]) := by
  constructor
  · intro h
    have hskip : ∀ acc, envLine acc line = acc := by
      rcases h with h | h
      · exact envLine_skip line (Or.inl h)
      · exact envLine_skip line (Or.inr (Or.inl h))
    exact foldl_skip envLine line hskip pre post []
  · intro h1 h2 h3
    simp [load_env_file, envLine, h1, h2, h3, dictSet]

/-- C8 witness: a comment line between two settings is ignored, and a quoted
value has its quotes stripped. -/
theorem C8_line_parsing_witness :
    load_env_file (some ["A=1", "# note", "B=2"]) = load_env_file (some ["A=1", "B=2"]) ∧
    load_env_file (some ["K=\"abc\""]) = [("K", "abc")] := by
  constructor
  · exact (C8_line_parsing ["A=1"] ["B=2"] "# note").1 (by decide)
  · exact ((C8_line_parsing [] [] "K=\"abc\"").2
      (by decide) (by decide) (by decide)).trans (by decide)

/-- C9: a missing configuration file (`none`) and an empty one (`some []`)
both yield the empty mapping — `load_env_file` is a total function, so no
error is possible — and looking up any key in the result yields `none`
rather than a failure. -/
theorem C9_missing_or_empty (k : String) :
    load_env_file none = [] ∧
    load_env_file (some []) = [] ∧
    dictGet (load_env_file none) k = none ∧
    dictGet (load_env_file (some [])) k = none := by
  exact ⟨rfl, rfl, rfl, rfl⟩

/-- C10: a line that (after whitespace stripping) is non-blank, does not
start with `#` and contains no `=` is silently skipped: it contributes no
entry and leaves the rest of the file's parse unchanged. -/
theorem C10_skip_no_eq (pre post : List String) (line : String)
    (h1 : pyStrip line ≠ "") (h2 : pyStartsWith (pyStrip line) "#" = false)
    (h3 : pyContainsChar (pyStrip line) '=' = false) :
    load_env_file (some (pre ++ line :: post)) = load_env_file (some (pre ++ post)) := by
  exact foldl_skip envLine line (envLine_skip line (Or.inr (Or.inr h3))) pre post []

/-- C10 witness: the `=`-free line `abc` between two settings contributes
nothing. -/
theorem C10_skip_no_eq_witness :
    load_env_file (some ["A=1", "abc", "B=2"]) = load_env_file (some ["A=1", "B=2"]) := by
  exact C10_skip_no_eq ["A=1"] ["B=2"] "abc" (by decide) (by decide) (by decide)
